import Mathlib

/-!
# Verification of the epub-browser repository against its specification

A shallow embedding, in Lean 4, of the parts of the `epub-browser` Python
code base (`src/epub_browser/{library,main,processor,watch}.py`) that the
specification's claims are about, together with theorems settling each
claim.

Conventions of the embedding:

* Python strings are Lean `String`s; Python byte strings are `List Nat`
  (each entry `< 256`).
* Python functions that can raise are embedded in `Except PyExc`; code
  that swallows exceptions (`try`/`except`) is embedded by matching on the
  `Except` value.
* File systems are embedded either as a tree (`Library.PyFS`, for the
  recursive directory walk of `epub_file_discover`) or as the flat list of
  existing file paths (`FileSys`, for existence tests, `shutil.rmtree`
  and `os.remove`).
* Paths handed to the watcher and to `get_monitor_path` are assumed to be
  absolute and already resolved (the Python code calls `Path.resolve` /
  `os.path.abspath`; the embedding does not model the working directory or
  symbolic links, so `resolve`/`abspath` act as `normpath` here).
-/

/-! ## Python-style path and string helpers

Shallow models of the `os.path` functions the sources use on POSIX paths.
-/

/-- Splitting a character list on a separator character (no collapsing of
empty pieces), the semantics shared by Python `str.split(sep)` and Lean
`String.splitOn` for a one-character separator.  Defined on `List Char`
so that it reduces inside the kernel. -/
def splitChar (sep : Char) : List Char → List (List Char)
  | [] => [[]]
  | c :: rest =>
    let r := splitChar sep rest
    if c = sep then [] :: r
    else
      match r with
      | h :: t => (c :: h) :: t
      | [] => [[c]]

/-- Python `s.split(sep)` for a one-character separator. -/
def pySplit (s : String) (sep : Char) : List String :=
  (splitChar sep s.data).map String.mk

/-- Python `s.startswith(pre)`. -/
def pyStartsWith (s pre : String) : Bool :=
  pre.data.isPrefixOf s.data

/-- Python `s.endswith(suf)`. -/
def pyEndsWith (s suf : String) : Bool :=
  suf.data.isSuffixOf s.data

/-- Python `c in s` for a single character. -/
def pyContainsChar (s : String) (c : Char) : Bool :=
  s.data.contains c

/-- Python `s[:n]`. -/
def pyTake (s : String) (n : Nat) : String :=
  String.mk (s.data.take n)

/-- Python `sep.join(l)` / Lean `String.intercalate`, on character
lists. -/
def joinWith (sep : String) (l : List String) : String :=
  String.mk (List.intercalate sep.data (l.map String.data))

/-- Python `filename[-5:]`: the last `n` characters of a Python string (the whole
string when it is shorter than `n`). -/
def pyTakeLast (s : String) (n : Nat) : String :=
  String.mk (s.data.drop (s.data.length - n))

/-- Model of `os.path.basename`: everything after the last `/` (empty if the path
ends with `/`). -/
def pyBasename (s : String) : String :=
  (pySplit s '/').getLastD ""

/-- Model of `os.path.dirname`: everything before the last `/`; `""` when there is
no `/`, `"/"` for a direct child of the root. -/
def pyDirname (s : String) : String :=
  let parts := pySplit s '/'
  match parts with
  | [] => ""
  | [_] => ""
  | ps =>
    let d := joinWith "/" ps.dropLast
    if d = "" then "/" else d

/-- Model of `os.path.join a b` for a single right argument: `b` wins when it is
absolute, otherwise it is appended with a separator unless `a` already
ends in one or is empty. -/
def pyJoin (a b : String) : String :=
  if pyStartsWith b "/" then b
  else if a = "" then b
  else if pyEndsWith a "/" then a ++ b
  else a ++ "/" ++ b

/-- The non-empty `/`-separated components of a path.  For an absolute,
resolved POSIX path `p` these are exactly `pathlib.Path(p).parts[1:]`. -/
def pathComps (s : String) : List String :=
  (pySplit s '/').filter (fun c => c ≠ "")

/-- Left-to-right stack step of `os.path.normpath`: drop `.`, resolve
`..` lexically (leading `..` survive on relative paths and are dropped at
the root of absolute ones). -/
def normStep (isAbs : Bool) (stack : List String) (c : String) : List String :=
  if c = "." then stack
  else if c = ".." then
    match stack.getLast? with
    | some l => if l = ".." then stack ++ [".."] else stack.dropLast
    | none => if isAbs then [] else [".."]
  else stack ++ [c]

/-- Model of `os.path.normpath` for POSIX paths (double leading slashes are not
modelled; no path in this development has them). -/
def pyNormPath (p : String) : String :=
  if p = "" then "." else
  let isAbs := pyStartsWith p "/"
  let comps := (pathComps p).filter (fun c => c ≠ ".")
  let stack := comps.foldl (normStep isAbs) []
  if isAbs then "/" ++ joinWith "/" stack
  else if stack = [] then "." else joinWith "/" stack

/-- UTF-8 encoding of one character (Python `str.encode()`). -/
def utf8Char (c : Char) : List Nat :=
  let n := c.toNat
  if n < 0x80 then [n]
  else if n < 0x800 then [0xC0 + n / 64, 0x80 + n % 64]
  else if n < 0x10000 then [0xE0 + n / 4096, 0x80 + (n / 64) % 64, 0x80 + n % 64]
  else [0xF0 + n / 262144, 0x80 + (n / 4096) % 64, 0x80 + (n / 64) % 64, 0x80 + n % 64]

/-- Python `str.encode()`: UTF-8 bytes of a string. -/
def utf8Bytes (s : String) : List Nat :=
  s.data.flatMap utf8Char

/-! ## MD5 (`hashlib.md5`)

A byte-level implementation of RFC 1321, used by `EPUBProcessor.__init__`
(processor.py:18) and `EPUBProcessor.generate_hash` (processor.py:49).
Words are `Nat`s kept below `2^32`.
-/

namespace MD5

def M32 : Nat := 4294967296

def not32 (x : Nat) : Nat := Nat.xor x 4294967295

def rotl32 (x c : Nat) : Nat := ((x <<< c) ||| (x >>> (32 - c))) % M32

/-- The 64 sine-derived round constants of RFC 1321. -/
def K : List Nat :=
  [0xd76aa478, 0xe8c7b756, 0x242070db, 0xc1bdceee,
   0xf57c0faf, 0x4787c62a, 0xa8304613, 0xfd469501,
   0x698098d8, 0x8b44f7af, 0xffff5bb1, 0x895cd7be,
   0x6b901122, 0xfd987193, 0xa679438e, 0x49b40821,
   0xf61e2562, 0xc040b340, 0x265e5a51, 0xe9b6c7aa,
   0xd62f105d, 0x02441453, 0xd8a1e681, 0xe7d3fbc8,
   0x21e1cde6, 0xc33707d6, 0xf4d50d87, 0x455a14ed,
   0xa9e3e905, 0xfcefa3f8, 0x676f02d9, 0x8d2a4c8a,
   0xfffa3942, 0x8771f681, 0x6d9d6122, 0xfde5380c,
   0xa4beea44, 0x4bdecfa9, 0xf6bb4b60, 0xbebfbc70,
   0x289b7ec6, 0xeaa127fa, 0xd4ef3085, 0x04881d05,
   0xd9d4d039, 0xe6db99e5, 0x1fa27cf8, 0xc4ac5665,
   0xf4292244, 0x432aff97, 0xab9423a7, 0xfc93a039,
   0x655b59c3, 0x8f0ccc92, 0xffeff47d, 0x85845dd1,
   0x6fa87e4f, 0xfe2ce6e0, 0xa3014314, 0x4e0811a1,
   0xf7537e82, 0xbd3af235, 0x2ad7d2bb, 0xeb86d391]

/-- The per-round left-rotation amounts of RFC 1321. -/
def S : List Nat :=
  [7, 12, 17, 22, 7, 12, 17, 22, 7, 12, 17, 22, 7, 12, 17, 22,
   5, 9, 14, 20, 5, 9, 14, 20, 5, 9, 14, 20, 5, 9, 14, 20,
   4, 11, 16, 23, 4, 11, 16, 23, 4, 11, 16, 23, 4, 11, 16, 23,
   6, 10, 15, 21, 6, 10, 15, 21, 6, 10, 15, 21, 6, 10, 15, 21]

/-- Round function and message-word index for round `i`. -/
def roundMix (i b c d : Nat) : Nat × Nat :=
  if i < 16 then ((b &&& c) ||| (not32 b &&& d), i)
  else if i < 32 then ((d &&& b) ||| (not32 d &&& c), (5 * i + 1) % 16)
  else if i < 48 then (Nat.xor b (Nat.xor c d), (3 * i + 5) % 16)
  else (Nat.xor c (b ||| not32 d), (7 * i) % 16)

/-- The 64-bit little-endian length trailer. -/
def le8 (n : Nat) : List Nat :=
  (List.range 8).map (fun i => (n >>> (8 * i)) % 256)

/-- RFC 1321 padding: a `0x80` byte, zeros to 56 mod 64, then the bit
length as a little-endian 64-bit integer. -/
def padMessage (msg : List Nat) : List Nat :=
  let zeros := (120 - (msg.length + 1) % 64) % 64
  msg ++ [0x80] ++ List.replicate zeros 0 ++ le8 ((msg.length * 8) % 2 ^ 64)

/-- Split a byte list into 64-byte blocks. -/
def chunks64 : List Nat → List (List Nat)
  | [] => []
  | x :: xs => (x :: xs.take 63) :: chunks64 (xs.drop 63)
termination_by l => l.length
decreasing_by simp [List.length_drop]; omega

/-- The sixteen little-endian 32-bit words of one 64-byte block. -/
def blockWords (block : List Nat) : List Nat :=
  (List.range 16).map fun j =>
    block.getD (4 * j) 0 + block.getD (4 * j + 1) 0 * 256 +
      block.getD (4 * j + 2) 0 * 65536 + block.getD (4 * j + 3) 0 * 16777216

/-- Process one block, updating the four state words. -/
def processChunk (h : Nat × Nat × Nat × Nat) (block : List Nat) : Nat × Nat × Nat × Nat :=
  let ws := blockWords block
  let r := (List.range 64).foldl
    (fun (st : Nat × Nat × Nat × Nat) i =>
      let (a, b, c, d) := st
      let (f, g) := roundMix i b c d
      let f2 := (f + a + K.getD i 0 + ws.getD g 0) % M32
      (d, (b + rotl32 f2 (S.getD i 0)) % M32, b, c))
    h
  ((h.1 + r.1) % M32, (h.2.1 + r.2.1) % M32, (h.2.2.1 + r.2.2.1) % M32,
    (h.2.2.2 + r.2.2.2) % M32)

def hexChar (n : Nat) : Char :=
  "0123456789abcdef".data.getD n '0'

def byteHex (n : Nat) : String :=
  String.mk [hexChar (n / 16 % 16), hexChar (n % 16)]

/-- Little-endian hex rendering of one 32-bit state word. -/
def wordHex (w : Nat) : String :=
  String.join ((List.range 4).map (fun i => byteHex ((w >>> (8 * i)) % 256)))

/-- Model of `hashlib.md5(bytes).hexdigest()`. -/
def md5Hex (msg : List Nat) : String :=
  let h := (chunks64 (padMessage msg)).foldl processChunk
    (0x67452301, 0xefcdab89, 0x98badcfe, 0x10325476)
  wordHex h.1 ++ wordHex h.2.1 ++ wordHex h.2.2.1 ++ wordHex h.2.2.2

end MD5

/-! ## `json.dumps` on the parsed table of contents

`EPUBProcessor.generate_hash` (processor.py:49) serializes `self.toc`, a
list of dicts `{'title': str, 'src': str, 'level': int}` built in that key
order by `parse_ncx`.  `json.dumps` with default arguments uses separators
`", "` and `": "` and `ensure_ascii=True` (every character outside
`0x20..0x7e` except `"` and `\` is `\uXXXX`-escaped, with surrogate pairs
beyond the BMP, and the short escapes `\b \t \n \f \r` for those
controls). -/

/-- One entry of `EPUBProcessor.toc` as produced by `parse_ncx`
(processor.py:231-235): insertion order `title`, `src`, `level`. -/
structure TocEntry where
  title : String
  src : String
  level : Nat
deriving DecidableEq, Repr

def hex4 (n : Nat) : String :=
  String.mk [MD5.hexChar (n / 4096 % 16), MD5.hexChar (n / 256 % 16),
    MD5.hexChar (n / 16 % 16), MD5.hexChar (n % 16)]

/-- The `\uXXXX` escape, as a surrogate pair above the BMP. -/
def jsonUEscape (n : Nat) : String :=
  if n < 0x10000 then "\\u" ++ hex4 n
  else
    let m := n - 0x10000
    "\\u" ++ hex4 (0xD800 + m / 0x400) ++ "\\u" ++ hex4 (0xDC00 + m % 0x400)

def jsonEscapeChar (c : Char) : String :=
  if c = '"' then "\\\""
  else if c = '\\' then "\\\\"
  else if c.toNat = 8 then "\\b"
  else if c.toNat = 9 then "\\t"
  else if c.toNat = 10 then "\\n"
  else if c.toNat = 12 then "\\f"
  else if c.toNat = 13 then "\\r"
  else if c.toNat < 0x20 ∨ 0x7e < c.toNat then jsonUEscape c.toNat
  else String.singleton c

/-- Model of `json.dumps` on a Python `str` (default `ensure_ascii=True`). -/
def jsonStr (s : String) : String :=
  "\"" ++ String.join (s.data.map jsonEscapeChar) ++ "\""

/-- Serialization of one toc dict, keys in insertion order. -/
def jsonTocEntry (e : TocEntry) : String :=
  "\x7b\"title\": " ++ jsonStr e.title ++ ", \"src\": " ++ jsonStr e.src ++
    ", \"level\": " ++ toString e.level ++ "\x7d"

/-- Model of `json.dumps(self.toc)` for the toc list. -/
def jsonToc (toc : List TocEntry) : String :=
  "[" ++ String.intercalate ", " (toc.map jsonTocEntry) ++ "]"

/-! ## The EPUB processor (`src/epub_browser/processor.py`) -/

namespace Processor

/-- The raised-exception kinds this development distinguishes. -/
inductive PyExc where
  | typeError
  | attributeError
  | fileNotFoundError
deriving DecidableEq, Repr

instance {ε α : Type} [DecidableEq ε] [DecidableEq α] : DecidableEq (Except ε α) := fun a b =>
  match a, b with
  | .ok x, .ok y => decidable_of_iff (x = y) (by simp)
  | .ok _, .error _ => isFalse (fun h => by cases h)
  | .error _, .ok _ => isFalse (fun h => by cases h)
  | .error x, .error y => decidable_of_iff (x = y) (by simp)

/-- The fields of `EPUBProcessor` relevant to hashing and directory
layout, as assigned by `__init__` (processor.py:15-40) and updated by
`generate_hash` (processor.py:42-60). -/
structure ProcState where
  epub_path : String
  output_dir : Option String
  book_hash : String
  temp_dir : String
  extract_dir : String
  web_dir : String
  toc : List TocEntry
deriving DecidableEq, Repr

/-- Model of `EPUBProcessor.__init__(epub_path, output_dir)` (processor.py:15-40).
`book_hash` starts as the first 8 hex characters of the MD5 of the source
path; `mkdtemp` stands for the fresh system temporary directory taken when
no output directory is given (the library always gives one). -/
def processorInit (epub_path : String) (output_dir : Option String) (mkdtemp : String) : ProcState :=
  let book_hash := pyTake (MD5.md5Hex (utf8Bytes epub_path)) 8
  let temp_dir := match output_dir with
    | some od => pyJoin od ("epub_" ++ book_hash)
    | none => mkdtemp
  { epub_path := epub_path
    output_dir := output_dir
    book_hash := book_hash
    temp_dir := temp_dir
    extract_dir := pyJoin temp_dir "extracted"
    web_dir := pyJoin temp_dir "web"
    toc := [] }

/-- Model of `EPUBProcessor.generate_hash` (processor.py:42-60): when `toc` is
non-empty, the hash becomes the first 8 hex characters of the MD5 of
`json.dumps(self.toc)`, and with an output directory the working
directories are renamed to the new hash.  The `os.rename` at
processor.py:55 is modelled as succeeding; when it fails the source keeps
the old directories (logged, non-fatal), which never affects
`book_hash`. -/
def generate_hash (st : ProcState) : ProcState :=
  if st.toc.isEmpty then st
  else
    let h := pyTake (MD5.md5Hex (utf8Bytes (jsonToc st.toc))) 8
    match st.output_dir with
    | some od =>
      let new_temp := pyJoin od ("epub_" ++ h)
      { st with book_hash := h, temp_dir := new_temp,
                web_dir := pyJoin new_temp "web",
                extract_dir := pyJoin new_temp "extracted" }
    | none => { st with book_hash := h }

/-! ### XML documents and `parse_ncx`

`xml.etree.ElementTree` elements, with the attribute lookup (`Element.get`),
child search (`findall('tag')`) and descendant search (`find('.//tag')`,
`find('.//tag1/tag2')`) semantics the processor relies on.  Namespaces are
dropped from tags: the sources always search fully-qualified NCX names, so
tag strings here stand for the qualified names. -/

inductive XmlElem where
  | mk (tag : String) (attrs : List (String × String)) (text : Option String)
       (children : List XmlElem)

def XmlElem.tag : XmlElem → String
  | .mk t _ _ _ => t

def XmlElem.attrs : XmlElem → List (String × String)
  | .mk _ a _ _ => a

def XmlElem.text : XmlElem → Option String
  | .mk _ _ x _ => x

def XmlElem.children : XmlElem → List XmlElem
  | .mk _ _ _ cs => cs

/-- Model of `Element.get(name)`: attribute lookup, `None` when absent. -/
def XmlElem.get (e : XmlElem) (name : String) : Option String :=
  (e.attrs.find? (fun p => p.1 = name)).map (fun p => p.2)

/-- Model of `element.findall('tag')`: direct children with the given tag. -/
def childrenByTag (e : XmlElem) (t : String) : List XmlElem :=
  e.children.filter (fun c => c.tag = t)

mutual

/-- All proper descendants of an element in document (pre-)order. -/
def XmlElem.descendants : XmlElem → List XmlElem
  | .mk _ _ _ cs => descendantsList cs

def descendantsList : List XmlElem → List XmlElem
  | [] => []
  | c :: rest => c :: c.descendants ++ descendantsList rest

end

theorem XmlElem.sizeOf_children_lt (np : XmlElem) : sizeOf np.children < sizeOf np := by
  cases np with
  | mk t a x cs => simp [XmlElem.children]

/-- Model of `element.find('.//t')`: first descendant with tag `t`. -/
def findDesc (e : XmlElem) (t : String) : Option XmlElem :=
  (e.descendants.filter (fun d => d.tag = t)).head?

/-- Model of `element.find('.//t1/t2')`: first `t2` child of a `t1` descendant. -/
def findDescChild (e : XmlElem) (t1 t2 : String) : Option XmlElem :=
  ((e.descendants.filter (fun d => d.tag = t1)).flatMap
    (fun d => childrenByTag d t2)).head?

mutual

/-- Model of `process_navpoint(navpoint, level)` (processor.py:213-240): look up the
first descendant `navLabel/text` and `content`; when both exist, read
`content.get('src')` — `'#' in src` with a missing `src` raises
`TypeError` (processor.py:223) — strip the fragment, and append a toc
entry when both the title and the stripped src are truthy. -/
def navpoint_entry (ncx_dir : String) (np : XmlElem) (level : Nat)
    (toc : List TocEntry) : Except PyExc (List TocEntry) :=
  match findDescChild np "navLabel" "text", findDesc np "content" with
  | some nav_label, some content =>
    match content.get "src" with
    | none => .error .typeError
    | some src0 =>
      let src := if pyContainsChar src0 '#' then (pySplit src0 '#').headD "" else src0
      match nav_label.text with
      | some title =>
        if title ≠ "" ∧ src ≠ "" then
          .ok (toc ++ [⟨title, pyNormPath (pyJoin ncx_dir src), level⟩])
        else .ok toc
      | none => .ok toc
  | _, _ => .ok toc

/-- Model of `process_navpoint(navpoint, level)` (processor.py:213-240): the
per-node step above, then recursion into the direct `navPoint` children
at `level + 1`. -/
def process_navpoint (ncx_dir : String) : XmlElem → Nat → List TocEntry →
    Except PyExc (List TocEntry)
  | .mk tg ats tx cs, level, toc =>
    match navpoint_entry ncx_dir (.mk tg ats tx cs) level toc with
    | .error e => .error e
    | .ok toc1 => process_navpoint_children ncx_dir cs (level + 1) toc1

/-- The loop over `navpoint.findall('navPoint')` (processor.py:238-240),
written as a walk over all children that skips other tags. -/
def process_navpoint_children (ncx_dir : String) (cs : List XmlElem)
    (level : Nat) (toc : List TocEntry) : Except PyExc (List TocEntry) :=
  match cs with
  | [] => .ok toc
  | c :: rest =>
    if c.tag = "navPoint" then
      match process_navpoint ncx_dir c level toc with
      | .error e => .error e
      | .ok toc1 => process_navpoint_children ncx_dir rest level toc1
    else process_navpoint_children ncx_dir rest level toc

end

/-- Model of `EPUBProcessor.parse_ncx(ncx_path)` (processor.py:182-254), given the
parsed document element: find `navMap` (no `navMap` means `[]`), process
its top-level `navPoint` children at level 0, and turn any exception into
`[]` (the `except` at processor.py:250-254). -/
def parse_ncx (ncx_path : String) (root : XmlElem) : List TocEntry :=
  match findDesc root "navMap" with
  | none => []
  | some nav_map =>
    match process_navpoint_children (pyDirname ncx_path) nav_map.children 0 [] with
    | .ok toc => toc
    | .error _ => []

mutual

/-- A navPoint that makes `process_navpoint` raise: both lookups succeed
but the found `content` element has no `src` attribute. -/
def defectiveNavPoint (np : XmlElem) : Bool :=
  match findDescChild np "navLabel" "text", findDesc np "content" with
  | some _, some content => (content.get "src").isNone
  | _, _ => false

/-- Whether the navPoint tree visited from `np` contains a defective
node. -/
def containsDefective : XmlElem → Bool
  | .mk tg ats tx cs =>
    defectiveNavPoint (.mk tg ats tx cs) || containsDefectiveList cs

def containsDefectiveList : List XmlElem → Bool
  | [] => false
  | c :: rest =>
    (if c.tag = "navPoint" then containsDefective c else false) ||
      containsDefectiveList rest

end

/-! ### The spine loop of `parse_opf` and `create_chapter_pages` -/

/-- One entry of the `manifest` dict built at processor.py:293-305. -/
structure ManifestItem where
  href : Option String
  media_type : String
  full_path : Option String
deriving DecidableEq, Repr

/-- The attributes of one `<item>` element under `<manifest>`. -/
structure OpfItem where
  id : Option String
  href : Option String
  media_type : Option String
deriving DecidableEq, Repr

/-- Python dict assignment `m[k] = v` (last assignment wins). -/
def dictSet (m : List (Option String × ManifestItem)) (k : Option String)
    (v : ManifestItem) : List (Option String × ManifestItem) :=
  if m.any (fun p => p.1 = k) then m.map (fun p => if p.1 = k then (k, v) else p)
  else m ++ [(k, v)]

/-- Python `k in m` / `m[k]` as one lookup. -/
def dictGet (m : List (Option String × ManifestItem)) (k : Option String) :
    Option ManifestItem :=
  (m.find? (fun p => p.1 = k)).map (fun p => p.2)

/-- The manifest-building loop (processor.py:293-305): each `<item>`
becomes a dict entry whose `full_path` is the href joined under the OPF's
directory and normalized (`None` href gives `None`). -/
def buildManifest (opf_dir : String) (items : List OpfItem) :
    List (Option String × ManifestItem) :=
  items.foldl
    (fun m it =>
      dictSet m it.id
        ⟨it.href, it.media_type.getD "",
          it.href.map (fun h => pyNormPath (pyJoin opf_dir h))⟩)
    []

/-- One appended element of `EPUBProcessor.chapters` (processor.py:325-329). -/
structure Chapter where
  id : Option String
  path : Option String
  title : String
deriving DecidableEq, Repr

/-- Model of `EPUBProcessor.find_chapter_title(chapter_path)` (processor.py:339-361):
three matching passes over `toc` — exact `src` match, basename match,
normalized-path match — returning `None` when all fail.  A `None`
`chapter_path` reaches `os.path.basename(None)` (processor.py:347) and
raises `TypeError`. -/
def find_chapter_title (toc : List TocEntry) : Option String → Except PyExc (Option String)
  | none => .error .typeError
  | some p =>
    match toc.find? (fun ti => ti.src = p) with
    | some ti => .ok (some ti.title)
    | none =>
      match toc.find? (fun ti => pyBasename ti.src = pyBasename p) with
      | some ti => .ok (some ti.title)
      | none =>
        match toc.find? (fun ti => pyNormPath ti.src = pyNormPath p) with
        | some ti => .ok (some ti.title)
        | none => .ok none

/-- The truthiness fallback `title or f"Chapter {len(self.chapters) + 1}"`
(processor.py:328). -/
def chapterTitleOr (title : Option String) (count : Nat) : String :=
  match title with
  | some t => if t = "" then "Chapter " ++ toString (count + 1) else t
  | none => "Chapter " ++ toString (count + 1)

/-- The spine loop of `parse_opf` (processor.py:313-329): for each
`<itemref idref=...>`, when the idref is a manifest key whose item has an
XHTML/HTML media type, append a chapter record.  Runs inside `parse_opf`'s
`try`, so an exception aborts the whole parse. -/
def spine_chapters (manifest : List (Option String × ManifestItem))
    (toc : List TocEntry) :
    List (Option String) → List Chapter → Except PyExc (List Chapter)
  | [], chapters => .ok chapters
  | idref :: rest, chapters =>
    match dictGet manifest idref with
    | none => spine_chapters manifest toc rest chapters
    | some item =>
      if item.media_type = "application/xhtml+xml" ∨ item.media_type = "text/html" then
        match find_chapter_title toc item.full_path with
        | .error e => .error e
        | .ok title =>
          spine_chapters manifest toc rest
            (chapters ++ [⟨idref, item.full_path, chapterTitleOr title chapters.length⟩])
      else spine_chapters manifest toc rest chapters

/-- The spine documents of a spine: the manifest items its itemrefs
resolve to that carry an XHTML/HTML media type. -/
def spineDocs (manifest : List (Option String × ManifestItem))
    (itemrefs : List (Option String)) : List ManifestItem :=
  itemrefs.filterMap fun idref =>
    match dictGet manifest idref with
    | some item =>
      if item.media_type = "application/xhtml+xml" ∨ item.media_type = "text/html" then
        some item
      else none
    | none => none

/-- A file system as the list of existing file paths; a path exists when
it is a file or a directory containing one. -/
def pathExists (fs : List String) (p : String) : Bool :=
  fs.any (fun f => f = p ∨ pyStartsWith f (p ++ "/"))

/-- Model of `EPUBProcessor.create_chapter_pages` (processor.py:1137-1158), with
the written pages recorded as `(file name, source chapter path)` pairs:
`enumerate` counts every chapter; `os.path.join(extract_dir, None)` at
processor.py:1140 raises `TypeError`; a chapter whose source file is
missing is silently skipped (the write happens only under the existence
check at processor.py:1142); reading and converting are modelled as
succeeding, so the per-chapter `except` (processor.py:1157) is not
taken. -/
def create_chapter_pages_loop (fs : List String) (extract_dir : String) :
    List Chapter → Nat → List (String × String) →
    Except PyExc (List (String × String))
  | [], _, written => .ok written
  | ch :: rest, i, written =>
    match ch.path with
    | none => .error .typeError
    | some cp =>
      if pathExists fs (pyJoin extract_dir cp) then
        create_chapter_pages_loop fs extract_dir rest (i + 1)
          (written ++ [("chapter_" ++ toString i ++ ".html", cp)])
      else create_chapter_pages_loop fs extract_dir rest (i + 1) written

def create_chapter_pages (fs : List String) (extract_dir : String)
    (chapters : List Chapter) : Except PyExc (List (String × String)) :=
  create_chapter_pages_loop fs extract_dir chapters 0 []

/-! ### Minification call sites -/

/-- The two sub-minification switches `minify_html.minify` is called
with. -/
structure MinifyFlags where
  minify_css : Bool
  minify_js : Bool
deriving DecidableEq, Repr

/-- The external minifier, abstract: any function of the flags and the
page text. -/
def MinifyFn := MinifyFlags → String → String

/-- The emission of the per-book home/index page (processor.py:1133):
`minify_html.minify(index_html, minify_css=False, minify_js=False)`. -/
def create_index_page_emit (minify : MinifyFn) (index_html : String) : String :=
  minify ⟨false, false⟩ index_html

/-- The emission of a chapter page (processor.py:3670):
`minify_html.minify(chapter_html, minify_css=False, minify_js=False)`. -/
def create_chapter_template_emit (minify : MinifyFn) (chapter_html : String) : String :=
  minify ⟨false, false⟩ chapter_html

/-- The emission of the library home page (library.py:921):
`minify_html.minify(library_html, minify_css=True, minify_js=True)`. -/
def create_library_home_emit (minify : MinifyFn) (library_html : String) : String :=
  minify ⟨true, true⟩ library_html

/-- A minifier instance that records which flags it was handed, used to
observe the call-site flags. -/
def flagProbe : MinifyFn := fun fl s =>
  (if fl.minify_css then "css+" else "css-") ++
    (if fl.minify_js then "js+" else "js-") ++ s

end Processor

/-! ## The library manager (`src/epub_browser/library.py`) -/

namespace Library

/-- The Python values flowing through `add_book` and its callers.  Only a
2-tuple (or a 2-character string) can be unpacked by a 2-target assignment
such as `result, book_info = library.add_book(filename)` (main.py:61);
unpacking any other value — in particular a `bool` — raises
`TypeError`. -/
inductive PyVal where
  | none
  | bool (b : Bool)
  | str (s : String)
  | tuple2 (a b : PyVal)
deriving DecidableEq, Repr

/-- Python 2-target iterable unpacking; `Option.none` is the `TypeError`
case. -/
def pyUnpack2 : PyVal → Option (PyVal × PyVal)
  | .tuple2 a b => some (a, b)
  | .str s =>
    match s.data with
    | [c1, c2] => some (.str (String.singleton c1), .str (String.singleton c2))
    | _ => none
  | _ => none

/-- Python truthiness of the values above. -/
def pyTruthy : PyVal → Bool
  | .none => false
  | .bool b => b
  | .str s => s ≠ ""
  | .tuple2 _ _ => true

/-- The fields of `get_book_info()` (processor.py:3700-3713) that
`add_book` stores. -/
structure BookInfo where
  title : String
  temp_dir : String
  path : String
  hash : String
  cover : String
deriving DecidableEq, Repr

/-- The dict value stored in `self.books[book_info['hash']]`
(library.py:78-86). -/
structure BookEntry where
  temp_dir : String
  title : String
  web_dir : String
  cover : String
deriving DecidableEq, Repr

/-- The dict `self.books`: a dict keyed by hash. -/
def Books := List (String × BookEntry)

/-- Python dict assignment for `books`. -/
def booksSet (m : List (String × BookEntry)) (k : String) (v : BookEntry) :
    List (String × BookEntry) :=
  if m.any (fun p => p.1 = k) then m.map (fun p => if p.1 = k then (k, v) else p)
  else m ++ [(k, v)]

/-- The behaviour of one `EPUBProcessor` over one source file: the result
(or exception) of each step `add_book` drives, and the book info snapshot
a successful run reports. -/
structure ProcessorRun where
  extract_epub : Except Processor.PyExc Bool
  parse_container : Except Processor.PyExc (Option String)
  parse_opf : Except Processor.PyExc Bool
  generate_hash : Except Processor.PyExc Unit
  create_web_interface : Except Processor.PyExc String
  book_info : BookInfo

/-- The body of `EPUBLibrary.add_book`'s `try` block (library.py:52-89):
run extract → parse_container → parse_opf → generate_hash →
create_web_interface, returning `False` when extraction fails, when the
container gives a falsy OPF path (`None` or `""`), or when the OPF parse
fails; on success register the book under its hash and return `True`. -/
def add_book_run (r : ProcessorRun) (books : List (String × BookEntry)) :
    Except Processor.PyExc (PyVal × List (String × BookEntry)) := do
  let ok ← r.extract_epub
  if !ok then return (.bool false, books)
  let opf_path ← r.parse_container
  if opf_path = none ∨ opf_path = some "" then return (.bool false, books)
  let ok2 ← r.parse_opf
  if !ok2 then return (.bool false, books)
  let _ ← r.generate_hash
  let web_dir ← r.create_web_interface
  let info := r.book_info
  return (.bool true,
    booksSet books info.hash ⟨info.temp_dir, info.title, web_dir, info.cover⟩)

/-- Model of `EPUBLibrary.add_book(epub_path)` (library.py:50-93): the `try` body
above with the `except` at library.py:91-93 turning any exception into a
logged `False`.  The function's value is always a bare Python `bool`. -/
def add_book (r : ProcessorRun) (books : List (String × BookEntry)) :
    PyVal × List (String × BookEntry) :=
  match add_book_run r books with
  | .ok v => v
  | .error _ => (.bool false, books)

/-- A processor run in which every step succeeds. -/
def okRun : ProcessorRun :=
  { extract_epub := .ok true
    parse_container := .ok (some "OEBPS/content.opf")
    parse_opf := .ok true
    generate_hash := .ok ()
    create_web_interface := .ok "/tmp/epub_aabbccdd/web"
    book_info :=
      { title := "EPUB Book", temp_dir := "/tmp/epub_aabbccdd",
        path := "/tmp/epub_aabbccdd/web", hash := "aabbccdd", cover := "" } }

/-- Model of `EPUBLibrary.is_epub_file` (library.py:33-35): the last five
characters equal `.epub`. -/
def is_epub_file (filename : String) : Bool :=
  pyTakeLast filename 5 == ".epub"

/-- A directory tree: `os.listdir` returns the entry names in the stored
order. -/
inductive PyFS where
  | file
  | dir (entries : List (String × PyFS))

mutual

/-- Model of `EPUBLibrary.epub_file_discover(filename)` (library.py:37-48): a path
with the `.epub` suffix is returned by itself (before any directory
check); a directory is walked recursively, joining names; anything else
contributes nothing.  There is no hidden-path test anywhere. -/
def epub_file_discover (filename : String) : PyFS → List String
  | .file => if is_epub_file filename then [filename] else []
  | .dir entries =>
    if is_epub_file filename then [filename]
    else epub_discover_entries filename entries

def epub_discover_entries (filename : String) : List (String × PyFS) → List String
  | [] => []
  | (n, child) :: rest =>
    epub_file_discover (pyJoin filename n) child ++ epub_discover_entries filename rest

end

/-- Model of `shutil.rmtree(d)` on the flat file-list model: drop everything at or
under `d`. -/
def rmtree (d : String) (fs : List String) : List String :=
  fs.filter (fun f => ¬(f = d ∨ pyStartsWith f (d ++ "/")))

/-- The directory bookkeeping of `EPUBLibrary.__init__`
(library.py:12-31): with an output directory, `base_directory` is that
directory. -/
structure LibraryPaths where
  output_dir : Option String
  base_directory : String
deriving DecidableEq, Repr

/-- Model of `EPUBLibrary.cleanup` (library.py:949-964).  With a user output
directory: remove each registered book's temp directory if it still
exists, then `os.remove(os.path.join(self.output_dir, "index.html"))` —
unguarded, so a missing `index.html` raises `FileNotFoundError`.  Nothing
else is touched; in particular the `assets` directory is not removed.
Without one: remove the whole `base_directory` tree if it exists. -/
def cleanup (lib : LibraryPaths) (books : List (String × BookEntry))
    (fs : List String) : Except Processor.PyExc (List String) :=
  match lib.output_dir with
  | some od =>
    let fs1 := books.foldl
      (fun acc p => if Processor.pathExists acc p.2.temp_dir then rmtree p.2.temp_dir acc else acc)
      fs
    let idx := pyJoin od "index.html"
    if fs1.any (fun f => f = idx) then .ok (fs1.filter (fun f => f ≠ idx))
    else .error .fileNotFoundError
  | none =>
    .ok (if Processor.pathExists fs lib.base_directory then rmtree lib.base_directory fs else fs)

/-- Every attribute name the source of `EPUBLibrary` ever binds on its
instances: the three assignments of `__init__` (library.py:13-29) and the
class's method names.  `file2hash`, `move_book`, `remove_book` and
`add_assets` — all used by `watch.py` and `main.py` — are not among
them. -/
def epubLibrary_attr_names : List String :=
  ["books", "output_dir", "base_directory",
   "is_epub_file", "epub_file_discover", "add_book",
   "create_library_home", "reorganize_files", "cleanup"]

/-- Python attribute lookup on an `EPUBLibrary` instance; `Option.none`
is `AttributeError`. -/
def library_getattr (name : String) : Option Unit :=
  if epubLibrary_attr_names.contains name then some () else none

end Library

/-! ## The CLI orchestrator (`src/epub_browser/main.py`) -/

namespace Main

/-- Model of `add_book_thread` (main.py:58-67) as its effect on the shared
`success_count`: the 2-target unpacking of `library.add_book`'s value
comes first; when it raises `TypeError` the thread dies before the locked
increment, leaving the counter unchanged; otherwise the counter grows
exactly when the first unpacked value is truthy. -/
def add_book_thread_effect (result : Library.PyVal) (success_count : Nat) : Nat :=
  match Library.pyUnpack2 result with
  | none => success_count
  | some (res, _) => if Library.pyTruthy res then success_count + 1 else success_count

/-- One scheduling event of the ingestion phase: worker `i` begins or
finishes its `add_book` call. -/
inductive IngestEvent where
  | start (i : Nat)
  | finish (i : Nat)
deriving DecidableEq, Repr

def startsOf (tr : List IngestEvent) : List Nat :=
  tr.filterMap fun e => match e with | .start i => some i | .finish _ => none

def finishesOf (tr : List IngestEvent) : List Nat :=
  tr.filterMap fun e => match e with | .finish i => some i | .start _ => none

/-- No worker finishes before it was started. -/
def traceCausal : List IngestEvent → List Nat → Bool
  | [], _ => true
  | .start i :: rest, started => traceCausal rest (i :: started)
  | .finish i :: rest, started => started.contains i && traceCausal rest started

/-- The schedules the ingestion loop of `main` (main.py:69-82) admits for
`n` files: the loop starts one plain `threading.Thread` per file, in
order, and joins them all afterwards, so a valid schedule starts workers
`0..n-1` in order, finishes each exactly once after its start — and
imposes no other constraint.  The `ThreadPoolExecutor(max_workers=10)`
opened at main.py:71 is never given any work (`executor.submit` is never
called; the threads are raw), so no schedule constraint bounds how many
workers run at once. -/
def validIngestTrace (n : Nat) (tr : List IngestEvent) : Bool :=
  startsOf tr == List.range n &&
  (finishesOf tr).length == n &&
  (List.range n).all (fun i => (finishesOf tr).count i == 1) &&
  traceCausal tr []

def maxConcurrentGo : List IngestEvent → Nat → Nat → Nat
  | [], _, m => m
  | .start _ :: r, c, m => maxConcurrentGo r (c + 1) (max m (c + 1))
  | .finish _ :: r, c, m => maxConcurrentGo r (c - 1) m

/-- The largest number of simultaneously running workers along a
schedule. -/
def maxConcurrent (tr : List IngestEvent) : Nat :=
  maxConcurrentGo tr 0 0

/-- The value of `success_count` after the join, given what
`library.add_book` returned to each worker (the per-worker updates are
serialized by `count_lock`, main.py:63-65). -/
def finalSuccessCount (results : List Library.PyVal) : Nat :=
  results.foldl (fun c r => add_book_thread_effect r c) 0

end Main

/-! ## The file-system watcher (`src/epub_browser/watch.py`) -/

namespace Watch

/-- Model of `EpubFileHandler.has_hidden_component` (watch.py:15-25) and its twin
`EPUBWatcher.has_no_hidden_component` (watch.py:157-167): some component
after the root starts with a dot.  Inputs are taken as absolute resolved
paths, so `Path(p).resolve().parts[1:]` is `pathComps p`. -/
def has_hidden_component (p : String) : Bool :=
  (pathComps p).any (fun c => pyStartsWith c ".")

def has_no_hidden_component (p : String) : Bool :=
  !(pathComps p).any (fun c => pyStartsWith c ".")

/-- The guard of `on_created` (watch.py:27-30) deciding whether the
handler's body (the `add_book`/`move_book`/`create_library_home` calls)
runs: a non-directory `.epub` path whose basename does not start with a
dot and which has no hidden component. -/
def on_created_acts (src_path : String) : Bool :=
  pyEndsWith src_path ".epub" &&
    !pyStartsWith (pyBasename src_path) "." && !has_hidden_component src_path

/-- The guard of `on_modified` (watch.py:45-48), identical in shape. -/
def on_modified_acts (src_path : String) : Bool :=
  pyEndsWith src_path ".epub" &&
    !pyStartsWith (pyBasename src_path) "." && !has_hidden_component src_path

/-- The guard of `on_deleted` (watch.py:63-65) before any library
lookup. -/
def on_deleted_acts (src_path : String) : Bool :=
  pyEndsWith src_path ".epub" &&
    !pyStartsWith (pyBasename src_path) "." && !has_hidden_component src_path

/-- The guard of `on_moved`'s removal of the old path (watch.py:82,90),
up to the short-circuited `file2hash` membership: the hidden checks come
first, so a hidden source is never looked up. -/
def on_moved_src_acts (src_path : String) : Bool :=
  pyEndsWith src_path ".epub" &&
    !pyStartsWith (pyBasename src_path) "." && !has_hidden_component src_path

/-- The guard of `on_moved`'s addition of the new path (watch.py:96-98). -/
def on_moved_dest_acts (dest_path : String) : Bool :=
  pyEndsWith dest_path ".epub" &&
    !pyStartsWith (pyBasename dest_path) "." && !has_hidden_component dest_path

/-- Model of `on_deleted` (watch.py:63-79) as far as its first library access: a
non-hidden `.epub` event reaches `event.src_path in self.library.file2hash`
(watch.py:68), an attribute `EPUBLibrary` never defines, and raises
`AttributeError`; other events return without acting. -/
def on_deleted_step (src_path : String) : Except Processor.PyExc Unit :=
  if pyEndsWith src_path ".epub" then
    if pyStartsWith (pyBasename src_path) "." || has_hidden_component src_path then .ok ()
    else
      match Library.library_getattr "file2hash" with
      | none => .error .attributeError
      | some _ => .ok ()
  else .ok ()

/-- Model of `EPUBWatcher.normalize_path` (watch.py:111-113):
`os.path.abspath(os.path.normpath(path))`; for the absolute inputs
considered here `abspath` is the identity on the normalized path. -/
def normalize_path (p : String) : String :=
  pyNormPath p

/-- The longest common component run of two absolute paths. -/
def commonLead : List String → List String → List String
  | x :: xs, y :: ys => if x = y then x :: commonLead xs ys else []
  | _, _ => []

/-- Model of `os.path.commonpath([a, b])` for two absolute POSIX paths. -/
def pyCommonPath (a b : String) : String :=
  "/" ++ joinWith "/" (commonLead (pathComps a) (pathComps b))

/-- Model of `EPUBWatcher.is_subpath(child_path, parent_path)` (watch.py:115-131):
equal paths, or the common path equals the parent. -/
def is_subpath (child_path parent_path : String) : Bool :=
  let child := normalize_path child_path
  let parent := normalize_path parent_path
  if child = parent then true
  else pyCommonPath child parent == parent

/-- Stable insertion used to model Python's stable `sorted(..., key=len)`
(watch.py:139). -/
def insertByLen (x : String) : List String → List String
  | [] => [x]
  | y :: ys => if y.length ≤ x.length then y :: insertByLen x ys else x :: y :: ys

def sortByLen (l : List String) : List String :=
  l.foldl (fun acc x => insertByLen x acc) []

/-- Model of `EPUBWatcher.remove_nested_paths` (watch.py:133-155): normalize
`self.paths`, sort them by string length, and keep each path not nested
under an already kept one. -/
def remove_nested_paths (paths : List String) : List String :=
  let normalized_paths := paths.map normalize_path
  let sorted_paths := sortByLen normalized_paths
  sorted_paths.foldl
    (fun unique_paths path =>
      if unique_paths.any (fun parent => is_subpath path parent) then unique_paths
      else unique_paths ++ [path])
    []

/-- Model of `list(set(x))`: deduplication whose order CPython leaves unspecified;
modelled as order-preserving deduplication.  The source discards this
value on the very next line, so the choice cannot be observed. -/
def pySetDedup (l : List String) : List String :=
  l.foldl (fun acc x => if acc.any (fun y => y = x) then acc else acc ++ [x]) []

/-- Model of `EPUBWatcher.get_monitor_path` (watch.py:169-186) over the flat
file-list model: build `valid_path` (directory of each input file,
existing directories as themselves), deduplicate it — and then overwrite
it with `self.remove_nested_paths()`, which reads the raw `self.paths`
(watch.py:184), before filtering hidden components. -/
def get_monitor_path (fs : List String) (paths : List String) : List String :=
  let valid_path := paths.foldl
    (fun acc filename =>
      if fs.any (fun f => f = filename) then acc ++ [pyDirname filename]
      else if Processor.pathExists fs filename then acc ++ [filename]
      else acc)
    []
  let _valid_path_dedup := pySetDedup valid_path
  let valid_path := remove_nested_paths paths
  valid_path.filter has_no_hidden_component

end Watch

/-! ## Theorems settling the claims -/

/-- The hash produced by `generate_hash` on a non-empty toc is determined
by the toc alone. -/
theorem generate_hash_book_hash (st : Processor.ProcState) (h : st.toc ≠ []) :
    (Processor.generate_hash st).book_hash
      = pyTake (MD5.md5Hex (utf8Bytes (jsonToc st.toc))) 8 := by
  have hne : st.toc.isEmpty = false := by
    cases hh : st.toc with
    | nil => exact absurd hh h
    | cons a l => rfl
  unfold Processor.generate_hash
  rw [hne]
  cases ho : st.output_dir <;> simp

/-- Claim C3:  For every two processing runs of EPUB content whose parsed
NCX table of contents is identical and non-empty, `generate_hash`
produces the same identifier regardless of the source file path: the
first 8 hex characters of the MD5 of the JSON-serialized toc list
(processor.py:48-49). -/
theorem C3_generate_hash_depends_only_on_toc
    (st1 st2 : Processor.ProcState) (toc : List TocEntry)
    (h1 : st1.toc = toc) (h2 : st2.toc = toc) (hne : toc ≠ []) :
    (Processor.generate_hash st1).book_hash = (Processor.generate_hash st2).book_hash ∧
    (Processor.generate_hash st1).book_hash
      = pyTake (MD5.md5Hex (utf8Bytes (jsonToc toc))) 8 := by
  have e1 := generate_hash_book_hash st1 (by rw [h1]; exact hne)
  have e2 := generate_hash_book_hash st2 (by rw [h2]; exact hne)
  rw [h1] at e1
  rw [h2] at e2
  exact ⟨by rw [e1, e2], e1⟩

/-- Witness for C3: two processors initialized from different source
paths and output directories, holding the same one-entry toc, agree on
the hash. -/
theorem C3_witness :
    ([⟨"Ch 1", "text/ch1.xhtml", 0⟩] : List TocEntry) ≠ [] ∧
    ((Processor.generate_hash
        { Processor.processorInit "/x/a.epub" (some "/out1") "" with
          toc := [⟨"Ch 1", "text/ch1.xhtml", 0⟩] }).book_hash
      = (Processor.generate_hash
        { Processor.processorInit "/y/b.epub" (some "/out2") "" with
          toc := [⟨"Ch 1", "text/ch1.xhtml", 0⟩] }).book_hash ∧
     (Processor.generate_hash
        { Processor.processorInit "/x/a.epub" (some "/out1") "" with
          toc := [⟨"Ch 1", "text/ch1.xhtml", 0⟩] }).book_hash
      = pyTake (MD5.md5Hex (utf8Bytes (jsonToc [⟨"Ch 1", "text/ch1.xhtml", 0⟩]))) 8) :=
  ⟨by decide,
   C3_generate_hash_depends_only_on_toc _ _ [⟨"Ch 1", "text/ch1.xhtml", 0⟩] rfl rfl (by decide)⟩

/-- Claim C6, counterexample:  The per-book home/index page is *not*
emitted with CSS and JS minification enabled: the call site at
processor.py:1133 passes `minify_css=False, minify_js=False`, which a
flag-sensitive minifier observes. -/
theorem C6_counterexample :
    Processor.create_index_page_emit Processor.flagProbe "" = "css-js-" ∧
    Processor.flagProbe { minify_css := true, minify_js := true } "" = "css+js+" ∧
    Processor.create_index_page_emit Processor.flagProbe ""
      ≠ Processor.flagProbe { minify_css := true, minify_js := true } "" := by
  decide

/-- Claim C6, amended:  Both the per-book home/index page and the chapter
pages are minified with CSS and JS minification disabled
(processor.py:1133, processor.py:3670); the library home page is the one
minified with both enabled (library.py:921). -/
theorem C6_minify_flags (m : Processor.MinifyFn) (html : String) :
    Processor.create_index_page_emit m html
      = m { minify_css := false, minify_js := false } html ∧
    Processor.create_chapter_template_emit m html
      = m { minify_css := false, minify_js := false } html ∧
    Processor.create_library_home_emit m html
      = m { minify_css := true, minify_js := true } html :=
  ⟨rfl, rfl, rfl⟩

/-- Claim C8:  `get_monitor_path` does not return the containing directory
of a file input: the deduplicated directory list it builds is discarded
when `valid_path` is overwritten by `remove_nested_paths()` over the raw
`self.paths` (watch.py:184).  With the single existing file
`/a/b.epub` given as input, the monitored set is the file itself, not
`/a`. -/
theorem C8_get_monitor_path_ignores_file_dirs :
    Watch.get_monitor_path ["/a/b.epub"] ["/a/b.epub"] = ["/a/b.epub"] ∧
    pyDirname "/a/b.epub" = "/a" ∧
    "/a" ∉ Watch.get_monitor_path ["/a/b.epub"] ["/a/b.epub"] := by
  decide

/-- Claim C2:  Ingesting 25 files: the schedule that starts all 25 raw
threads before any finishes is admitted by `main`'s ingestion loop
(main.py:69-82; the `ThreadPoolExecutor(max_workers=10)` is never used),
reaching 25 — not at most 10 — concurrent `add_book` calls; and although
all 25 `add_book` calls return success, the final `success_count` is 0,
because each worker dies unpacking the boolean (main.py:61) before the
guarded increment. -/
theorem C2_ingestion_unbounded_and_counter_dead :
    Main.validIngestTrace 25
      ((List.range 25).map Main.IngestEvent.start
        ++ (List.range 25).map Main.IngestEvent.finish) = true ∧
    Main.maxConcurrent
      ((List.range 25).map Main.IngestEvent.start
        ++ (List.range 25).map Main.IngestEvent.finish) = 25 ∧
    10 < Main.maxConcurrent
      ((List.range 25).map Main.IngestEvent.start
        ++ (List.range 25).map Main.IngestEvent.finish) ∧
    (List.replicate 25 (Library.add_book Library.okRun []).1).countP Library.pyTruthy = 25 ∧
    Main.finalSuccessCount (List.replicate 25 (Library.add_book Library.okRun []).1) = 0 := by
  decide

/-- Claim C5:  Any watcher delete event for a non-hidden `.epub` path
reaches `self.library.file2hash` (watch.py:68), an attribute no code of
`EPUBLibrary` ever assigns, and dies with `AttributeError`; `move_book`
and `remove_book` are equally missing.  No `fileIndex` map exists whose
keys could satisfy the invariant. -/
theorem C5_on_deleted_attribute_error (p : String)
    (h1 : pyEndsWith p ".epub" = true)
    (h2 : pyStartsWith (pyBasename p) "." = false)
    (h3 : Watch.has_hidden_component p = false) :
    Watch.on_deleted_step p = .error .attributeError ∧
    Library.library_getattr "file2hash" = none ∧
    Library.library_getattr "move_book" = none ∧
    Library.library_getattr "remove_book" = none := by
  have hf : Library.library_getattr "file2hash" = none := by decide
  refine ⟨?_, hf, by decide, by decide⟩
  simp [Watch.on_deleted_step, h1, h2, h3, hf]

/-- Witness for C5 at the concrete deleted path `/books/a.epub`. -/
theorem C5_witness :
    pyEndsWith "/books/a.epub" ".epub" = true ∧
    pyStartsWith (pyBasename "/books/a.epub") "." = false ∧
    Watch.has_hidden_component "/books/a.epub" = false ∧
    (Watch.on_deleted_step "/books/a.epub" = .error .attributeError ∧
     Library.library_getattr "file2hash" = none ∧
     Library.library_getattr "move_book" = none ∧
     Library.library_getattr "remove_book" = none) :=
  ⟨by decide, by decide, by decide,
   C5_on_deleted_attribute_error "/books/a.epub" (by decide) (by decide) (by decide)⟩

/-- Claim C7, counterexample:  Discovery does return hidden `.epub`
files: on a directory `d` containing `.x.epub`, `epub_file_discover`
returns `d/.x.epub`, whose basename starts with a dot. -/
theorem C7_counterexample :
    Library.epub_file_discover "d" (Library.PyFS.dir [(".x.epub", Library.PyFS.file)])
      = ["d/.x.epub"] ∧
    pyStartsWith (pyBasename "d/.x.epub") "." = true := by
  decide

/-- Claim C7, amended:  The watcher half of the claim holds: no handler
guard (create, modify, delete, move-source, move-destination) passes for
a path whose basename starts with a dot or which has a dot-prefixed
component; discovery, however, applies no hidden-path filter and does
return hidden `.epub` files. -/
theorem C7_hidden_paths (p : String)
    (h : pyStartsWith (pyBasename p) "." = true ∨ Watch.has_hidden_component p = true) :
    Watch.on_created_acts p = false ∧
    Watch.on_modified_acts p = false ∧
    Watch.on_deleted_acts p = false ∧
    Watch.on_moved_src_acts p = false ∧
    Watch.on_moved_dest_acts p = false ∧
    (Library.epub_file_discover "d" (Library.PyFS.dir [(".x.epub", Library.PyFS.file)])
        = ["d/.x.epub"] ∧
     Watch.has_hidden_component "d/.x.epub" = true) := by
  have hall : ∀ g : String → Bool,
      (g = Watch.on_created_acts ∨ g = Watch.on_modified_acts ∨ g = Watch.on_deleted_acts ∨
       g = Watch.on_moved_src_acts ∨ g = Watch.on_moved_dest_acts) → g p = false := by
    intro g hg
    have : g p = (pyEndsWith p ".epub" &&
        !pyStartsWith (pyBasename p) "." && !Watch.has_hidden_component p) := by
      rcases hg with h | h | h | h | h <;> rw [h] <;> rfl
    rw [this]
    rcases h with h | h <;> simp [h]
  exact ⟨hall _ (Or.inl rfl), hall _ (Or.inr (Or.inl rfl)),
    hall _ (Or.inr (Or.inr (Or.inl rfl))),
    hall _ (Or.inr (Or.inr (Or.inr (Or.inl rfl)))),
    hall _ (Or.inr (Or.inr (Or.inr (Or.inr rfl)))), by decide, by decide⟩

/-- Witness for C7 (amended) at the hidden path `/books/.hidden/a.epub`. -/
theorem C7_witness :
    Watch.has_hidden_component "/books/.hidden/a.epub" = true ∧
    (Watch.on_created_acts "/books/.hidden/a.epub" = false ∧
     Watch.on_modified_acts "/books/.hidden/a.epub" = false ∧
     Watch.on_deleted_acts "/books/.hidden/a.epub" = false ∧
     Watch.on_moved_src_acts "/books/.hidden/a.epub" = false ∧
     Watch.on_moved_dest_acts "/books/.hidden/a.epub" = false ∧
     (Library.epub_file_discover "d" (Library.PyFS.dir [(".x.epub", Library.PyFS.file)])
         = ["d/.x.epub"] ∧
      Watch.has_hidden_component "d/.x.epub" = true)) :=
  ⟨by decide, C7_hidden_paths "/books/.hidden/a.epub" (Or.inr (by decide))⟩
/-- Claim C1:  `add_book` never lets an exception escape and always returns
a bare Python boolean — never the `(success, book_info)` pair its callers
unpack — so the 2-target assignment at main.py:61 (and watch.py:38, 56,
99) raises `TypeError` on every call. -/
theorem C1_add_book_returns_bare_bool (r : Library.ProcessorRun)
    (books : List (String × Library.BookEntry)) :
    (∃ b, (Library.add_book r books).1 = Library.PyVal.bool b) ∧
    Library.pyUnpack2 (Library.add_book r books).1 = none := by
  obtain ⟨ex, pc, po, gh, cw, info⟩ := r
  unfold Library.add_book Library.add_book_run
  rcases ex with e | ok
  · exact ⟨⟨false, rfl⟩, rfl⟩
  rcases ok with _ | _
  · exact ⟨⟨false, rfl⟩, rfl⟩
  rcases pc with e | opf
  · exact ⟨⟨false, rfl⟩, rfl⟩
  by_cases hopf : opf = none ∨ opf = some ""
  · simp only [Bind.bind, Except.bind, if_pos hopf]
    exact ⟨⟨false, rfl⟩, rfl⟩
  · simp only [Bind.bind, Except.bind, if_neg hopf]
    rcases po with e | ok2
    · exact ⟨⟨false, rfl⟩, rfl⟩
    rcases ok2 with _ | _
    · exact ⟨⟨false, rfl⟩, rfl⟩
    rcases gh with e | u
    · exact ⟨⟨false, rfl⟩, rfl⟩
    rcases cw with e | wd
    · exact ⟨⟨false, rfl⟩, rfl⟩
    exact ⟨⟨true, rfl⟩, rfl⟩
/-- Claim C9, counterexample:  With an explicit output directory, cleanup
does not remove the `assets/` directory: on a state where
`/out/assets/library.css` exists, it still exists after `cleanup`
returns. -/
theorem C9_counterexample :
    Library.cleanup { output_dir := some "/out", base_directory := "/out" }
        [("aabbccdd", { temp_dir := "/out/epub_aabbccdd", title := "T",
                        web_dir := "/out/epub_aabbccdd/web", cover := "" })]
        ["/out/index.html", "/out/assets/library.css",
         "/out/epub_aabbccdd/web/index.html", "/out/user.txt"]
      = .ok ["/out/assets/library.css", "/out/user.txt"] ∧
    Processor.pathExists ["/out/index.html", "/out/assets/library.css",
         "/out/epub_aabbccdd/web/index.html", "/out/user.txt"] "/out/assets" = true ∧
    Processor.pathExists ["/out/assets/library.css", "/out/user.txt"] "/out/assets" = true := by
  decide

/-- Membership in the temp-directory removal loop of `cleanup`
(library.py:953-957): a file survives it exactly when it lies under no
registered book's existing temp directory; the existence guard changes
nothing, because removing a subtree nobody lies under removes
nothing. -/
theorem mem_cleanup_temp_fold (books : List (String × Library.BookEntry)) :
    ∀ (fs : List String) (f : String),
    (f ∈ books.foldl
        (fun acc p =>
          if Processor.pathExists acc p.2.temp_dir then Library.rmtree p.2.temp_dir acc else acc)
        fs
      ↔ f ∈ fs ∧
        ∀ p ∈ books, ¬(f = p.2.temp_dir ∨ pyStartsWith f (p.2.temp_dir ++ "/") = true)) := by
  induction books with
  | nil => intro fs f; simp
  | cons b rest ih =>
    intro fs f
    rw [List.foldl_cons]
    have hstep : f ∈ (if Processor.pathExists fs b.2.temp_dir then Library.rmtree b.2.temp_dir fs else fs)
        ↔ f ∈ fs ∧ ¬(f = b.2.temp_dir ∨ pyStartsWith f (b.2.temp_dir ++ "/") = true) := by
      by_cases hex : Processor.pathExists fs b.2.temp_dir = true
      · rw [if_pos hex]
        simp [Library.rmtree, List.mem_filter]
      · rw [if_neg (by simpa using hex)]
        simp only [Processor.pathExists, List.any_eq_true, not_exists, not_and,
          decide_eq_true_eq, Bool.not_eq_true] at hex
        push_neg at hex
        constructor
        · intro hf
          exact ⟨hf, not_or.mpr (hex f hf)⟩
        · intro hf
          exact hf.1
    rw [ih]
    rw [hstep]
    simp only [List.forall_mem_cons]
    tauto

/-- Claim C9, amended:  With a user-supplied output directory, `cleanup`
removes exactly the registered books' still-present temp directories and
the generated `index.html` — every other file, the `assets/` directory
included, survives; without one, it removes exactly the
`base_directory` subtree. -/
theorem C9_cleanup_scope :
    (∀ (base od : String) (books : List (String × Library.BookEntry)) (fs out : List String),
      Library.cleanup { output_dir := some od, base_directory := base } books fs = .ok out →
      ∀ f, (f ∈ out ↔ f ∈ fs ∧
        (∀ p ∈ books, ¬(f = p.2.temp_dir ∨ pyStartsWith f (p.2.temp_dir ++ "/") = true)) ∧
        f ≠ pyJoin od "index.html")) ∧
    (∀ (base : String) (books : List (String × Library.BookEntry)) (fs out : List String),
      Library.cleanup { output_dir := none, base_directory := base } books fs = .ok out →
      ∀ f, (f ∈ out ↔ f ∈ fs ∧ ¬(f = base ∨ pyStartsWith f (base ++ "/") = true))) := by
  constructor
  · intro base od books fs out h f
    unfold Library.cleanup at h
    simp only at h
    split at h
    · rename_i hc
      rw [Except.ok.injEq] at h
      subst h
      rw [List.mem_filter]
      rw [mem_cleanup_temp_fold]
      simp only [decide_eq_true_eq]
      tauto
    · exact absurd h (by simp)
  · intro base books fs out h f
    unfold Library.cleanup at h
    simp only [Except.ok.injEq] at h
    subst h
    by_cases hex : Processor.pathExists fs base = true
    · rw [if_pos hex]
      simp [Library.rmtree, List.mem_filter]
    · rw [if_neg (by simpa using hex)]
      simp only [Processor.pathExists, List.any_eq_true, decide_eq_true_eq,
        Bool.not_eq_true] at hex
      push_neg at hex
      constructor
      · intro hf
        exact ⟨hf, not_or.mpr (hex f hf)⟩
      · intro hf
        exact hf.1

/-- Witness for C9 (amended): the concrete run of the counterexample
state, evaluated through the theorem at the surviving assets file. -/
theorem C9_witness :
    (Library.cleanup { output_dir := some "/out", base_directory := "/out" }
        [("aabbccdd", { temp_dir := "/out/epub_aabbccdd", title := "T",
                        web_dir := "/out/epub_aabbccdd/web", cover := "" })]
        ["/out/index.html", "/out/assets/library.css",
         "/out/epub_aabbccdd/web/index.html", "/out/user.txt"]
      = .ok ["/out/assets/library.css", "/out/user.txt"]) ∧
    ("/out/assets/library.css" ∈ (["/out/assets/library.css", "/out/user.txt"] : List String) ↔
      "/out/assets/library.css" ∈ (["/out/index.html", "/out/assets/library.css",
         "/out/epub_aabbccdd/web/index.html", "/out/user.txt"] : List String) ∧
      (∀ p ∈ [("aabbccdd",
          Library.BookEntry.mk "/out/epub_aabbccdd" "T" "/out/epub_aabbccdd/web" "")],
        ¬("/out/assets/library.css" = p.2.temp_dir ∨
          pyStartsWith "/out/assets/library.css" (p.2.temp_dir ++ "/") = true)) ∧
      "/out/assets/library.css" ≠ pyJoin "/out" "index.html") :=
  ⟨by decide, C9_cleanup_scope.1 "/out" "/out" _ _ _ (by decide) "/out/assets/library.css"⟩
/-- Lemma: `find_chapter_title` never raises on a present chapter path: each of
its three passes only inspects the toc. -/
theorem find_chapter_title_some_isOk (toc : List TocEntry) (p : String) :
    ∃ r, Processor.find_chapter_title toc (some p) = .ok r := by
  unfold Processor.find_chapter_title
  rcases h1 : toc.find? (fun ti => ti.src = p) with _ | ti1
  · rcases h2 : toc.find? (fun ti => pyBasename ti.src = pyBasename p) with _ | ti2
    · rcases h3 : toc.find? (fun ti => pyNormPath ti.src = pyNormPath p) with _ | ti3
      · exact ⟨none, by simp [h1, h2, h3]⟩
      · exact ⟨some ti3.title, by simp [h1, h2, h3]⟩
    · exact ⟨some ti2.title, by simp [h1, h2]⟩
  · exact ⟨some ti1.title, by simp [h1]⟩

/-- The spine loop succeeds and appends one chapter per resolving
XHTML/HTML itemref, in spine order, when every such item carries an
href. -/
theorem spine_chapters_ok (manifest : List (Option String × Processor.ManifestItem))
    (toc : List TocEntry) :
    ∀ (itemrefs : List (Option String)) (chapters : List Processor.Chapter),
    (∀ item ∈ Processor.spineDocs manifest itemrefs, item.full_path ≠ none) →
    ∃ chs, Processor.spine_chapters manifest toc itemrefs chapters = .ok chs ∧
      chs.map Processor.Chapter.path
        = chapters.map Processor.Chapter.path
          ++ (Processor.spineDocs manifest itemrefs).map Processor.ManifestItem.full_path := by
  intro itemrefs
  induction itemrefs with
  | nil =>
    intro chapters _
    exact ⟨chapters, rfl, by simp [Processor.spineDocs]⟩
  | cons idref rest ih =>
    intro chapters hp
    rcases hg : Processor.dictGet manifest idref with _ | item
    · have hdocs : Processor.spineDocs manifest (idref :: rest)
          = Processor.spineDocs manifest rest := by
        simp [Processor.spineDocs, hg]
      rw [hdocs] at hp
      obtain ⟨chs, h1, h2⟩ := ih chapters hp
      refine ⟨chs, ?_, ?_⟩
      · simp only [Processor.spine_chapters, hg]
        exact h1
      · rw [hdocs]
        exact h2
    · by_cases hm : item.media_type = "application/xhtml+xml" ∨ item.media_type = "text/html"
      · have hdocs : Processor.spineDocs manifest (idref :: rest)
            = item :: Processor.spineDocs manifest rest := by
          simp only [Processor.spineDocs, List.filterMap_cons, hg, if_pos hm]
        rw [hdocs] at hp
        have hne : item.full_path ≠ none := hp item (List.mem_cons_self _ _)
        obtain ⟨p, hpth⟩ := Option.ne_none_iff_exists'.mp hne
        obtain ⟨r, hr⟩ := find_chapter_title_some_isOk toc p
        have hr2 : Processor.find_chapter_title toc item.full_path = .ok r := by
          rw [hpth]; exact hr
        obtain ⟨chs, h1, h2⟩ := ih
          (chapters ++ [⟨idref, item.full_path,
            Processor.chapterTitleOr r chapters.length⟩])
          (fun it hit => hp it (List.mem_cons_of_mem _ hit))
        refine ⟨chs, ?_, ?_⟩
        · simp only [Processor.spine_chapters, hg, if_pos hm, hr2]
          exact h1
        · rw [hdocs, h2]
          simp
      · have hdocs : Processor.spineDocs manifest (idref :: rest)
            = Processor.spineDocs manifest rest := by
          simp only [Processor.spineDocs, List.filterMap_cons, hg, if_neg hm]
        rw [hdocs] at hp
        obtain ⟨chs, h1, h2⟩ := ih chapters hp
        refine ⟨chs, ?_, ?_⟩
        · simp only [Processor.spine_chapters, hg, if_neg hm]
          exact h1
        · rw [hdocs]
          exact h2

/-- The `(file name, source path)` pairs `create_chapter_pages` writes
for chapters indexed from `i`, when every source file is present. -/
def chapterNamesFrom (i : Nat) : List Processor.Chapter → List (String × String)
  | [] => []
  | ch :: rest =>
    ("chapter_" ++ toString i ++ ".html", ch.path.getD "") :: chapterNamesFrom (i + 1) rest

theorem create_chapter_pages_loop_ok (fs : List String) (extract_dir : String) :
    ∀ (chapters : List Processor.Chapter) (i : Nat) (written : List (String × String)),
    (∀ c ∈ chapters, c.path ≠ none ∧
        Processor.pathExists fs (pyJoin extract_dir (c.path.getD "")) = true) →
    Processor.create_chapter_pages_loop fs extract_dir chapters i written
      = .ok (written ++ chapterNamesFrom i chapters) := by
  intro chapters
  induction chapters with
  | nil =>
    intro i written _
    simp [Processor.create_chapter_pages_loop, chapterNamesFrom]
  | cons ch rest ih =>
    intro i written h
    obtain ⟨hpne, hex⟩ := h ch (List.mem_cons_self _ _)
    obtain ⟨p, hp⟩ := Option.ne_none_iff_exists'.mp hpne
    rw [hp] at hex
    simp only [Option.getD_some] at hex
    simp only [Processor.create_chapter_pages_loop, hp, hex, if_pos]
    rw [ih (i + 1) _ (fun c hc => h c (List.mem_cons_of_mem _ hc))]
    simp [chapterNamesFrom, hp]

theorem chapterNamesFrom_map_fst :
    ∀ (l : List Processor.Chapter) (i : Nat),
    (chapterNamesFrom i l).map Prod.fst
      = (List.range' i l.length).map (fun k => "chapter_" ++ toString k ++ ".html") := by
  intro l
  induction l with
  | nil => intro i; simp [chapterNamesFrom]
  | cons ch rest ih => intro i; simp [chapterNamesFrom, List.range'_succ, ih]

theorem chapterNamesFrom_map_snd :
    ∀ (l : List Processor.Chapter), (∀ c ∈ l, c.path ≠ none) →
    ∀ i, (chapterNamesFrom i l).map (fun w => some w.2) = l.map Processor.Chapter.path := by
  intro l
  induction l with
  | nil => intro _ i; simp [chapterNamesFrom]
  | cons ch rest ih =>
    intro h i
    obtain ⟨p, hp⟩ := Option.ne_none_iff_exists'.mp (h ch (List.mem_cons_self _ _))
    simp [chapterNamesFrom, hp, ih (fun c hc => h c (List.mem_cons_of_mem _ hc)) (i + 1)]

/-- Claim C4:  For every spine whose itemrefs resolve to XHTML/HTML
manifest items that carry an href and whose files exist in the extracted
tree, the spine loop of `parse_opf` appends exactly one ChapterRecord per
such itemref, in spine order, and `create_chapter_pages` writes exactly
the files `chapter_0.html` … `chapter_{N-1}.html`, the `i`-th generated
from the `i`-th such spine document. -/
theorem C4_spine_chapter_records_and_pages
    (manifest : List (Option String × Processor.ManifestItem)) (toc : List TocEntry)
    (itemrefs : List (Option String)) (fs : List String) (extract_dir : String)
    (hdoc : ∀ item ∈ Processor.spineDocs manifest itemrefs,
      item.full_path ≠ none ∧
        Processor.pathExists fs (pyJoin extract_dir (item.full_path.getD "")) = true) :
    ∃ chs written,
      Processor.spine_chapters manifest toc itemrefs [] = .ok chs ∧
      chs.length = (Processor.spineDocs manifest itemrefs).length ∧
      chs.map Processor.Chapter.path
        = (Processor.spineDocs manifest itemrefs).map Processor.ManifestItem.full_path ∧
      Processor.create_chapter_pages fs extract_dir chs = .ok written ∧
      written.map Prod.fst
        = (List.range chs.length).map (fun k => "chapter_" ++ toString k ++ ".html") ∧
      written.map (fun w => some w.2) = chs.map Processor.Chapter.path := by
  obtain ⟨chs, h1, h2⟩ :=
    spine_chapters_ok manifest toc itemrefs [] (fun it hit => (hdoc it hit).1)
  simp only [List.map_nil, List.nil_append] at h2
  have hlen : chs.length = (Processor.spineDocs manifest itemrefs).length := by
    have := congrArg List.length h2
    simpa using this
  have hc : ∀ c ∈ chs, c.path ≠ none ∧
      Processor.pathExists fs (pyJoin extract_dir (c.path.getD "")) = true := by
    intro c hcmem
    have hmem : c.path ∈ chs.map Processor.Chapter.path := List.mem_map_of_mem _ hcmem
    rw [h2] at hmem
    obtain ⟨item, hitem, heq⟩ := List.mem_map.mp hmem
    obtain ⟨hne, hex⟩ := hdoc item hitem
    rw [heq] at hne hex
    exact ⟨hne, hex⟩
  refine ⟨chs, chapterNamesFrom 0 chs, h1, hlen, h2, ?_, ?_, ?_⟩
  · unfold Processor.create_chapter_pages
    exact create_chapter_pages_loop_ok fs extract_dir chs 0 [] hc
  · rw [chapterNamesFrom_map_fst, List.range_eq_range']
  · exact chapterNamesFrom_map_snd chs (fun c hcm => (hc c hcm).1) 0

/-- Witness for C4: a three-item manifest with two spine documents, both
present in the extracted tree. -/
theorem C4_witness :
    (∀ item ∈ Processor.spineDocs
        (Processor.buildManifest "OEBPS"
          [⟨some "c1", some "text/ch1.xhtml", some "application/xhtml+xml"⟩,
           ⟨some "css", some "style.css", some "text/css"⟩,
           ⟨some "c2", some "text/ch2.html", some "text/html"⟩])
        [some "c1", some "css", some "c2", some "missing"],
      item.full_path ≠ none ∧
        Processor.pathExists
          ["/t/extracted/OEBPS/text/ch1.xhtml", "/t/extracted/OEBPS/text/ch2.html"]
          (pyJoin "/t/extracted" (item.full_path.getD "")) = true) ∧
    (∃ chs written,
      Processor.spine_chapters
        (Processor.buildManifest "OEBPS"
          [⟨some "c1", some "text/ch1.xhtml", some "application/xhtml+xml"⟩,
           ⟨some "css", some "style.css", some "text/css"⟩,
           ⟨some "c2", some "text/ch2.html", some "text/html"⟩])
        [] [some "c1", some "css", some "c2", some "missing"] [] = .ok chs ∧
      chs.length = (Processor.spineDocs
        (Processor.buildManifest "OEBPS"
          [⟨some "c1", some "text/ch1.xhtml", some "application/xhtml+xml"⟩,
           ⟨some "css", some "style.css", some "text/css"⟩,
           ⟨some "c2", some "text/ch2.html", some "text/html"⟩])
        [some "c1", some "css", some "c2", some "missing"]).length ∧
      chs.map Processor.Chapter.path
        = (Processor.spineDocs
        (Processor.buildManifest "OEBPS"
          [⟨some "c1", some "text/ch1.xhtml", some "application/xhtml+xml"⟩,
           ⟨some "css", some "style.css", some "text/css"⟩,
           ⟨some "c2", some "text/ch2.html", some "text/html"⟩])
        [some "c1", some "css", some "c2", some "missing"]).map Processor.ManifestItem.full_path ∧
      Processor.create_chapter_pages
        ["/t/extracted/OEBPS/text/ch1.xhtml", "/t/extracted/OEBPS/text/ch2.html"]
        "/t/extracted" chs = .ok written ∧
      written.map Prod.fst
        = (List.range chs.length).map (fun k => "chapter_" ++ toString k ++ ".html") ∧
      written.map (fun w => some w.2) = chs.map Processor.Chapter.path) :=
  ⟨by decide,
   C4_spine_chapter_records_and_pages
     (Processor.buildManifest "OEBPS"
       [⟨some "c1", some "text/ch1.xhtml", some "application/xhtml+xml"⟩,
        ⟨some "css", some "style.css", some "text/css"⟩,
        ⟨some "c2", some "text/ch2.html", some "text/html"⟩])
     [] [some "c1", some "css", some "c2", some "missing"]
     ["/t/extracted/OEBPS/text/ch1.xhtml", "/t/extracted/OEBPS/text/ch2.html"]
     "/t/extracted" (by decide)⟩
/-- A defective navPoint makes the per-node step raise `TypeError`. -/
theorem navpoint_entry_error_of_defective (d : String) (np : Processor.XmlElem)
    (l : Nat) (t : List TocEntry) (h : Processor.defectiveNavPoint np = true) :
    Processor.navpoint_entry d np l t = .error .typeError := by
  unfold Processor.navpoint_entry
  unfold Processor.defectiveNavPoint at h
  rcases h1 : Processor.findDescChild np "navLabel" "text" with _ | nl
  · rw [h1] at h; simp at h
  · rcases h2 : Processor.findDesc np "content" with _ | ct
    · rw [h1, h2] at h; simp at h
    · rw [h1, h2] at h
      have h9 : (ct.get "src").isNone = true := h
      rcases h3 : ct.get "src" with _ | v
      · simp [h1, h2, h3]
      · rw [h3] at h9; simp at h9

/-- A non-defective navPoint's per-node step returns normally. -/
theorem navpoint_entry_ok_of_not_defective (d : String) (np : Processor.XmlElem)
    (l : Nat) (t : List TocEntry) (h : Processor.defectiveNavPoint np = false) :
    ∃ t2, Processor.navpoint_entry d np l t = .ok t2 := by
  unfold Processor.navpoint_entry
  rcases h1 : Processor.findDescChild np "navLabel" "text" with _ | nl
  · exact ⟨t, by simp [h1]⟩
  · rcases h2 : Processor.findDesc np "content" with _ | ct
    · exact ⟨t, by simp [h1, h2]⟩
    · rcases h3 : ct.get "src" with _ | src0
      · exfalso
        unfold Processor.defectiveNavPoint at h
        rw [h1, h2] at h
        have h9 : (ct.get "src").isNone = false := h
        rw [h3] at h9
        simp at h9
      · rcases h4 : nl.text with _ | title
        · exact ⟨t, by simp [h1, h2, h3, h4]⟩
        · by_cases h5 : (title ≠ "" ∧
              (if pyContainsChar src0 '#' then (pySplit src0 '#').headD "" else src0) ≠ "")
          · refine ⟨t ++ [⟨title,
              pyNormPath (pyJoin d
                (if pyContainsChar src0 '#' then (pySplit src0 '#').headD "" else src0)),
              l⟩], ?_⟩
            simp only [h1, h2, h3, h4]
            rw [if_pos h5]
          · refine ⟨t, ?_⟩
            simp only [h1, h2, h3, h4]
            rw [if_neg h5]

/-- When the visited navPoint forest contains a defective node, the
child-processing loop raises. -/
theorem process_children_error_of_defective :
    ∀ (n : Nat) (cs : List Processor.XmlElem), sizeOf cs ≤ n →
      Processor.containsDefectiveList cs = true →
      ∀ (d : String) (level : Nat) (toc : List TocEntry),
        ∃ e, Processor.process_navpoint_children d cs level toc = .error e := by
  intro n
  induction n using Nat.strong_induction_on with
  | _ n IH =>
    intro cs hsz h d level toc
    match cs with
    | [] => simp [Processor.containsDefectiveList] at h
    | c :: rest =>
      obtain ⟨tg, ats, tx, cs'⟩ := c
      have hsz1 : sizeOf cs' < n := by
        simp only [List.cons.sizeOf_spec, Processor.XmlElem.mk.sizeOf_spec] at hsz
        omega
      have hsz2 : sizeOf rest < n := by
        simp only [List.cons.sizeOf_spec, Processor.XmlElem.mk.sizeOf_spec] at hsz
        omega
      by_cases htag : (Processor.XmlElem.mk tg ats tx cs').tag = "navPoint"
      · rw [Processor.containsDefectiveList, if_pos htag, Bool.or_eq_true] at h
        by_cases hd : Processor.containsDefective (.mk tg ats tx cs') = true
        · by_cases hdf : Processor.defectiveNavPoint (.mk tg ats tx cs') = true
          · have he := navpoint_entry_error_of_defective d _ level toc hdf
            refine ⟨.typeError, ?_⟩
            simp only [Processor.process_navpoint_children, if_pos htag,
              Processor.process_navpoint, he]
          · have hcs' : Processor.containsDefectiveList cs' = true := by
              rw [Processor.containsDefective, Bool.or_eq_true] at hd
              rcases hd with hd | hd
              · exact absurd hd hdf
              · exact hd
            obtain ⟨t2, ht2⟩ := navpoint_entry_ok_of_not_defective d
              (.mk tg ats tx cs') level toc (by simpa using hdf)
            obtain ⟨e, he⟩ := IH (sizeOf cs') hsz1 cs' le_rfl hcs' d (level + 1) t2
            refine ⟨e, ?_⟩
            simp only [Processor.process_navpoint_children, if_pos htag,
              Processor.process_navpoint, ht2, he]
        · have hrest : Processor.containsDefectiveList rest = true := by
            rcases h with h | h
            · exact absurd h hd
            · exact h
          rcases hr : Processor.process_navpoint d (.mk tg ats tx cs') level toc with e | t1
          · exact ⟨e, by simp only [Processor.process_navpoint_children, if_pos htag, hr]⟩
          · obtain ⟨e, he⟩ := IH (sizeOf rest) hsz2 rest le_rfl hrest d level t1
            exact ⟨e,
              by simp only [Processor.process_navpoint_children, if_pos htag, hr, he]⟩
      · rw [Processor.containsDefectiveList, if_neg htag, Bool.false_or] at h
        obtain ⟨e, he⟩ := IH (sizeOf rest) hsz2 rest le_rfl h d level toc
        exact ⟨e, by simp only [Processor.process_navpoint_children, if_neg htag, he]⟩

/-- The hypothesis of claim C10: the document has a `navMap` whose
visited navPoint forest contains a node with a `navLabel/text` and a
`content` element lacking a `src` attribute. -/
def ncx_has_defective_navpoint (root : Processor.XmlElem) : Bool :=
  match Processor.findDesc root "navMap" with
  | none => false
  | some nav_map => Processor.containsDefectiveList nav_map.children

/-- Claim C10:  For every NCX document containing a navPoint with a
`navLabel/text` and a `content` element without a `src` attribute,
`parse_ncx` returns the empty list — the entire table of contents is
discarded (the `TypeError` from `'#' in None` at processor.py:223 is
caught by the whole-file `except` at processor.py:250) — and
`generate_hash` on the resulting empty toc leaves the processor state,
its path-derived hash included, unchanged. -/
theorem C10_parse_ncx_discards_whole_toc (ncx_path : String)
    (root : Processor.XmlElem) (h : ncx_has_defective_navpoint root = true) :
    Processor.parse_ncx ncx_path root = [] ∧
    ∀ st : Processor.ProcState, st.toc = Processor.parse_ncx ncx_path root →
      Processor.generate_hash st = st := by
  have hmain : Processor.parse_ncx ncx_path root = [] := by
    unfold ncx_has_defective_navpoint at h
    unfold Processor.parse_ncx
    rcases hm : Processor.findDesc root "navMap" with _ | nm
    · rfl
    · rw [hm] at h
      obtain ⟨e, he⟩ := process_children_error_of_defective (sizeOf nm.children)
        nm.children le_rfl h (pyDirname ncx_path) 0 []
      simp only [he]
  refine ⟨hmain, ?_⟩
  intro st hst
  rw [hmain] at hst
  unfold Processor.generate_hash
  rw [hst]
  simp

/-- Witness for C10: an NCX with one good navPoint and one whose
`content` lacks `src`; the whole toc is discarded and the path-derived
hash survives `generate_hash`. -/
theorem C10_witness :
    ncx_has_defective_navpoint
      (Processor.XmlElem.mk "ncx" [] none
        [Processor.XmlElem.mk "navMap" [] none
          [Processor.XmlElem.mk "navPoint" [] none
            [Processor.XmlElem.mk "navLabel" [] none
              [Processor.XmlElem.mk "text" [] (some "Ch 1") []],
             Processor.XmlElem.mk "content" [("src", "text/ch1.xhtml")] none []],
           Processor.XmlElem.mk "navPoint" [] none
            [Processor.XmlElem.mk "navLabel" [] none
              [Processor.XmlElem.mk "text" [] (some "Bad") []],
             Processor.XmlElem.mk "content" [] none []]]]) = true ∧
    (Processor.parse_ncx "OEBPS/toc.ncx"
      (Processor.XmlElem.mk "ncx" [] none
        [Processor.XmlElem.mk "navMap" [] none
          [Processor.XmlElem.mk "navPoint" [] none
            [Processor.XmlElem.mk "navLabel" [] none
              [Processor.XmlElem.mk "text" [] (some "Ch 1") []],
             Processor.XmlElem.mk "content" [("src", "text/ch1.xhtml")] none []],
           Processor.XmlElem.mk "navPoint" [] none
            [Processor.XmlElem.mk "navLabel" [] none
              [Processor.XmlElem.mk "text" [] (some "Bad") []],
             Processor.XmlElem.mk "content" [] none []]]]) = [] ∧
     Processor.generate_hash (Processor.processorInit "/x/a.epub" (some "/out") "")
       = Processor.processorInit "/x/a.epub" (some "/out") "") :=
  ⟨by decide,
   (C10_parse_ncx_discards_whole_toc "OEBPS/toc.ncx" _ (by decide)).1,
   (C10_parse_ncx_discards_whole_toc "OEBPS/toc.ncx"
      (Processor.XmlElem.mk "ncx" [] none
        [Processor.XmlElem.mk "navMap" [] none
          [Processor.XmlElem.mk "navPoint" [] none
            [Processor.XmlElem.mk "navLabel" [] none
              [Processor.XmlElem.mk "text" [] (some "Ch 1") []],
             Processor.XmlElem.mk "content" [("src", "text/ch1.xhtml")] none []],
           Processor.XmlElem.mk "navPoint" [] none
            [Processor.XmlElem.mk "navLabel" [] none
              [Processor.XmlElem.mk "text" [] (some "Bad") []],
             Processor.XmlElem.mk "content" [] none []]]]) (by decide)).2
     (Processor.processorInit "/x/a.epub" (some "/out") "") (by decide)⟩
